import Mathlib

/-!
Verification of the controller-button monitoring subsystem of
Decky-Translator (class HidrawButtonMonitor in main.py) against its
natural-language specification.  The Python code is shallowly embedded:
pure computations become Lean functions, the mutable monitor object
becomes an explicit state record, and the environment (filesystem,
device reads, ioctl results) becomes explicit oracle records.
-/

namespace DeckyTranslator

/-- The closed set of logical button names appearing in the two mask
tables BUTTONS_L and BUTTONS_H of HidrawButtonMonitor. -/
inductive Button
  | R2 | L2 | R1 | L1 | Y | B | X | A
  | DPAD_UP | DPAD_RIGHT | DPAD_LEFT | DPAD_DOWN
  | SELECT | STEAM | START | L5 | R5
  | LEFT_PAD_TOUCH | RIGHT_PAD_TOUCH | LEFT_PAD_CLICK | RIGHT_PAD_CLICK
  | L3 | R3
  | L4 | R4 | QAM
deriving DecidableEq, Fintype

/-- Button masks for ButtonsL (bytes 8-11, uint32 LE), from
HidrawButtonMonitor.BUTTONS_L in main.py. -/
def BUTTONS_L : List (Button × Nat) :=
  [ (.R2, 0x00000001), (.L2, 0x00000002), (.R1, 0x00000004), (.L1, 0x00000008),
    (.Y, 0x00000010), (.B, 0x00000020), (.X, 0x00000040), (.A, 0x00000080),
    (.DPAD_UP, 0x00000100), (.DPAD_RIGHT, 0x00000200), (.DPAD_LEFT, 0x00000400),
    (.DPAD_DOWN, 0x00000800), (.SELECT, 0x00001000), (.STEAM, 0x00002000),
    (.START, 0x00004000), (.L5, 0x00008000), (.R5, 0x00010000),
    (.LEFT_PAD_TOUCH, 0x00020000), (.RIGHT_PAD_TOUCH, 0x00040000),
    (.LEFT_PAD_CLICK, 0x00080000), (.RIGHT_PAD_CLICK, 0x00100000),
    (.L3, 0x00400000), (.R3, 0x04000000) ]

/-- Button masks for ButtonsH (bytes 12-15, uint32 LE), from
HidrawButtonMonitor.BUTTONS_H in main.py. -/
def BUTTONS_H : List (Button × Nat) :=
  [ (.L4, 0x00000200), (.R4, 0x00000400), (.QAM, 0x00040000) ]

/-- struct.unpack of a 32-bit little-endian unsigned integer from four
bytes of the packet starting at offset `off`; each entry of `data` models
one byte of the Python bytes object, hence the reduction mod 256. -/
def le32 (data : List Nat) (off : Nat) : Nat :=
  data.getD off 0 % 256
    + data.getD (off + 1) 0 % 256 * 256
    + data.getD (off + 2) 0 % 256 * 65536
    + data.getD (off + 3) 0 % 256 * 16777216

/-- The set of buttons asserted by the two mask words: the loops over
BUTTONS_L.items() and BUTTONS_H.items() in _process_packet that build
new_buttons. -/
def decodeState (bl bh : Nat) : Finset Button :=
  ((BUTTONS_L.filter fun p => bl &&& p.2 != 0).map Prod.fst).toFinset ∪
    ((BUTTONS_H.filter fun p => bh &&& p.2 != 0).map Prod.fst).toFinset

/-- The pure packet decoder: bytes 8-11 give ButtonsL, bytes 12-15 give
ButtonsH (lines 372-373 of main.py), and the asserted-button set is
computed from the two mask tables. -/
def decodePacket (data : List Nat) : Finset Button :=
  decodeState (le32 data 8) (le32 data 12)

/-- Written from the specification text (section 4.1): for every button,
whether its mask lives in ButtonsH (true) or ButtonsL (false), and the
hex mask the specification assigns to it. -/
def specButtonMask : Button → Bool × Nat
  | .R2 => (false, 0x1)
  | .L2 => (false, 0x2)
  | .R1 => (false, 0x4)
  | .L1 => (false, 0x8)
  | .Y => (false, 0x10)
  | .B => (false, 0x20)
  | .X => (false, 0x40)
  | .A => (false, 0x80)
  | .DPAD_UP => (false, 0x100)
  | .DPAD_RIGHT => (false, 0x200)
  | .DPAD_LEFT => (false, 0x400)
  | .DPAD_DOWN => (false, 0x800)
  | .SELECT => (false, 0x1000)
  | .STEAM => (false, 0x2000)
  | .START => (false, 0x4000)
  | .L5 => (false, 0x8000)
  | .R5 => (false, 0x10000)
  | .LEFT_PAD_TOUCH => (false, 0x20000)
  | .RIGHT_PAD_TOUCH => (false, 0x40000)
  | .LEFT_PAD_CLICK => (false, 0x80000)
  | .RIGHT_PAD_CLICK => (false, 0x100000)
  | .L3 => (false, 0x400000)
  | .R3 => (false, 0x4000000)
  | .L4 => (true, 0x200)
  | .R4 => (true, 0x400)
  | .QAM => (true, 0x40000)

/-- Written from the specification text: a 32-bit little-endian integer
extracted at byte offset `off`. -/
def specWord (data : List Nat) (off : Nat) : Nat :=
  data.getD off 0 % 256
    + data.getD (off + 1) 0 % 256 * 2 ^ 8
    + data.getD (off + 2) 0 % 256 * 2 ^ 16
    + data.getD (off + 3) 0 % 256 * 2 ^ 24

lemma le32_eq_specWord (data : List Nat) (off : Nat) :
    le32 data off = specWord data off := by
  simp [le32, specWord]

lemma mem_filterTable (l : List (Button × Nat)) (w : Nat) (b : Button) :
    b ∈ ((l.filter fun p => w &&& p.2 != 0).map Prod.fst) ↔
      ∃ m, (b, m) ∈ l ∧ w &&& m ≠ 0 := by
  simp only [List.mem_map, List.mem_filter, bne_iff_ne, ne_eq]
  constructor
  · rintro ⟨⟨b', m⟩, ⟨hm, hw⟩, rfl⟩
    exact ⟨m, hm, hw⟩
  · rintro ⟨m, hm, hw⟩
    exact ⟨(b, m), ⟨hm, hw⟩, rfl⟩

lemma mem_decodeState (bl bh : Nat) (b : Button) :
    b ∈ decodeState bl bh ↔
      (∃ m, (b, m) ∈ BUTTONS_L ∧ bl &&& m ≠ 0) ∨
        (∃ m, (b, m) ∈ BUTTONS_H ∧ bh &&& m ≠ 0) := by
  simp only [decodeState, Finset.mem_union, List.mem_toFinset,
    mem_filterTable]

lemma mem_decodeState_mask (bl bh : Nat) (b : Button) :
    b ∈ decodeState bl bh ↔
      (if (specButtonMask b).1 then bh else bl) &&& (specButtonMask b).2 ≠ 0 := by
  rw [mem_decodeState]
  cases b <;>
    simp [BUTTONS_L, BUTTONS_H, specButtonMask, Prod.ext_iff]

/-- A button event as produced by _process_packet: a dict with keys
button, pressed and timestamp. -/
structure BEvent where
  button : Button
  pressed : Bool
  timestamp : Nat
deriving DecidableEq

/-- The mutable fields of a HidrawButtonMonitor object (set in __init__).
File descriptors and device paths are abstracted to natural numbers. -/
structure MonState where
  device_fd : Option Nat
  device_path : Option Nat
  running : Bool
  thread : Bool
  event_queue : List BEvent
  current_buttons : Finset Button
  last_buttons_l : Nat
  last_buttons_h : Nat
  error_count : Nat
  initialized : Bool
deriving DecidableEq

/-- The fresh state built by HidrawButtonMonitor.__init__. -/
def initState : MonState :=
  { device_fd := none, device_path := none, running := false, thread := false,
    event_queue := [], current_buttons := ∅, last_buttons_l := 0,
    last_buttons_h := 0, error_count := 0, initialized := false }

/-- Enqueueing one event on the bounded queue (maxsize 100): put_nowait,
and on queue.Full a get_nowait discarding the oldest entry followed by the
put_nowait of the new event.  The list head is the oldest entry. -/
def enqueue (q : List BEvent) (e : BEvent) : List BEvent :=
  if q.length < 100 then q ++ [e] else q.tail ++ [e]

/-- A fixed enumeration of all buttons, used to render the
set-difference iterations of _process_packet as lists. -/
def allButtons : List Button :=
  [ .R2, .L2, .R1, .L1, .Y, .B, .X, .A,
    .DPAD_UP, .DPAD_RIGHT, .DPAD_LEFT, .DPAD_DOWN,
    .SELECT, .STEAM, .START, .L5, .R5,
    .LEFT_PAD_TOUCH, .RIGHT_PAD_TOUCH, .LEFT_PAD_CLICK, .RIGHT_PAD_CLICK,
    .L3, .R3, .L4, .R4, .QAM ]

/-- The events generated by _process_packet for one packet: one
pressed=False event per button of current_buttons - new_buttons, then one
pressed=True event per button of new_buttons - current_buttons, all with
the same capture timestamp. -/
def packetEvents (ts : Nat) (cur nb : Finset Button) : List BEvent :=
  ((allButtons.filter fun b => decide (b ∈ cur ∧ b ∉ nb)).map
      fun b => ⟨b, false, ts⟩) ++
    ((allButtons.filter fun b => decide (b ∈ nb ∧ b ∉ cur)).map
      fun b => ⟨b, true, ts⟩)

/-- HidrawButtonMonitor._process_packet: extract ButtonsL and ButtonsH,
return unchanged if both equal the previous raw words, otherwise decode
the new button set, enqueue one event per changed button and store the
new state.  Also returns the list of emitted events. -/
def processPacket (ts : Nat) (data : List Nat) (st : MonState) :
    MonState × List BEvent :=
  let bl := le32 data 8
  let bh := le32 data 12
  if bl = st.last_buttons_l ∧ bh = st.last_buttons_h then (st, [])
  else
    let nb := decodeState bl bh
    let evs := packetEvents ts st.current_buttons nb
    ({ st with
        event_queue := evs.foldl enqueue st.event_queue,
        current_buttons := nb,
        last_buttons_l := bl,
        last_buttons_h := bh }, evs)

/-- The drain loop of get_events: up to `n` get_nowait calls, stopping
early when the queue is empty; returns the drained events and the
remaining queue. -/
def drainLoop : Nat → List BEvent → List BEvent × List BEvent
  | 0, q => ([], q)
  | _ + 1, [] => ([], [])
  | n + 1, e :: q =>
      let p := drainLoop n q
      (e :: p.1, p.2)

/-- HidrawButtonMonitor.get_events. -/
def get_events (max_events : Nat) (st : MonState) : List BEvent × MonState :=
  let p := drainLoop max_events st.event_queue
  (p.1, { st with event_queue := p.2 })

/-- HidrawButtonMonitor.get_button_state: a snapshot of the current
button set. -/
def get_button_state (st : MonState) : Finset Button :=
  st.current_buttons

/-- Environment oracle for initialize_device: the result of find_device,
whether os.open succeeds, and whether each of the two feature-report
ioctl calls succeeds. -/
structure InitEnv where
  findResult : Option Nat
  openOk : Bool
  report1Ok : Bool
  report2Ok : Bool
deriving DecidableEq

/-- HidrawButtonMonitor.send_feature_report: returns False when no
descriptor is open, otherwise the outcome of the ioctl. -/
def send_feature_report (reportOk : Bool) (fd : Option Nat) : Bool :=
  match fd with
  | none => false
  | some _ => reportOk

/-- The body of the try block of initialize_device after the device path
is known: open read-write, send the two initialization feature reports
(their failures are only logged), set initialized and return True; an
open failure closes and clears the descriptor and returns False. -/
def openPhase (env : InitEnv) (st : MonState) : Bool × MonState :=
  if env.openOk then
    let st1 := { st with device_fd := some 0 }
    let _r1 := send_feature_report env.report1Ok st1.device_fd
    let _r2 := send_feature_report env.report2Ok st1.device_fd
    (true, { st1 with initialized := true })
  else (false, { st with device_fd := none })

/-- HidrawButtonMonitor.initialize_device: discover the device path when
none is stored, fail when discovery fails, otherwise open and send the
initialization commands. -/
def initialize_device (env : InitEnv) (st : MonState) : Bool × MonState :=
  match st.device_path with
  | none =>
      match env.findResult with
      | none => (false, st)
      | some p => openPhase env { st with device_path := some p }
  | some _ => openPhase env st

/-- HidrawButtonMonitor.start: return True at once when already running,
otherwise initialize the device; on success set the running flag and
spawn the monitor thread, on failure return False. -/
def start (env : InitEnv) (st : MonState) : Bool × MonState :=
  if st.running then (true, st)
  else
    let p := initialize_device env st
    if p.1 then (true, { p.2 with running := true, thread := true })
    else (false, p.2)

/-- HidrawButtonMonitor.stop: clear the running flag, join and drop the
thread, close the descriptor and clear the initialized flag.  Nothing
else of the state is touched. -/
def stop (st : MonState) : MonState :=
  { st with
      running := false, thread := false, device_fd := none,
      initialized := false }

/-- HidrawButtonMonitor._close_device: close and clear the descriptor,
clear the initialized flag and forget the device path. -/
def close_device (st : MonState) : MonState :=
  { st with device_fd := none, initialized := false, device_path := none }

/-- Outcome of one select-and-read attempt of the monitor loop. -/
inductive ReadResult
  | noData
  | ok (data : List Nat)
  | oserr
  | otherErr
deriving DecidableEq

/-- Observable side effects of one monitor-loop iteration. -/
inductive Act
  | sleepMs (n : Nat)
deriving DecidableEq

/-- Environment oracle for one iteration of _monitor_loop. -/
structure LoopEnv where
  init : InitEnv
  read : ReadResult
  ts : Nat

/-- The select-and-read part of one _monitor_loop iteration: nothing on a
select timeout; on a read of at least 16 bytes process the packet and
reset the error counter; shorter reads are discarded; an OSError
increments the error counter and, at the threshold of 10, force-closes
the device and sleeps the 2-second reconnect delay; any other exception
increments the counter and sleeps 100 ms. -/
def readPhase (env : LoopEnv) (st : MonState) : MonState × List Act :=
  match env.read with
  | .noData => (st, [])
  | .ok data =>
      if 16 ≤ data.length then
        let st1 := (processPacket env.ts data st).1
        ({ st1 with error_count := 0 }, [])
      else (st, [])
  | .oserr =>
      let st1 := { st with error_count := st.error_count + 1 }
      if 10 ≤ st1.error_count then (close_device st1, [.sleepMs 2000])
      else (st1, [])
  | .otherErr =>
      ({ st with error_count := st.error_count + 1 }, [.sleepMs 100])

/-- One iteration of HidrawButtonMonitor._monitor_loop: when the monitor
is not initialized or has no descriptor, attempt initialize_device,
sleeping the reconnect delay on failure and falling through to the read
on success; otherwise go straight to the read. -/
def monitorStep (env : LoopEnv) (st : MonState) : MonState × List Act :=
  if !st.initialized || st.device_fd.isNone then
    let p := initialize_device env.init st
    if p.1 then readPhase env p.2
    else (p.2, [.sleepMs 2000])
  else readPhase env st

/-- Boolean contiguous-sublist test on lists, mirroring the Python
substring operator used on the uevent content and the symlink target. -/
def isInfixB (needle : List Char) : List Char → Bool
  | [] => needle.isEmpty
  | a :: t => needle.isPrefixOf (a :: t) || isInfixB needle t

/-- Environment oracle for find_device, indexed by the hidraw number:
whether /dev/hidrawN exists, the content of its uevent file (none when
the read raises), the target of its /sys/class/hidraw symlink (none when
readlink raises), and the outcomes of the non-blocking open, the 100 ms
select wait and the 64-byte probe read of the data-check fallback. -/
structure DiscoveryEnv where
  devExists : Nat → Bool
  uevent : Nat → Option (List Char)
  symlink : Nat → Option (List Char)
  openOk : Nat → Bool
  selectReady : Nat → Bool
  readOk : Nat → Bool

/-- Candidate test of find_device: the device node exists and its uevent
content, upper-cased, contains both the vendor id 28DE and the product
id 1205 as substrings. -/
def isCandidate (env : DiscoveryEnv) (i : Nat) : Bool :=
  env.devExists i &&
    match env.uevent i with
    | some c =>
        isInfixB "28DE".toList (c.map Char.toUpper) &&
          isInfixB "1205".toList (c.map Char.toUpper)
    | none => false

/-- The candidate list of find_device: hidraw numbers 0 through 9 that
pass the vendor/product check, in increasing order. -/
def candidates (env : DiscoveryEnv) : List Nat :=
  (List.range 10).filter (isCandidate env)

/-- Symlink strategy of find_device: the readlink target contains the
interface marker :1.2/ as a substring. -/
def symlinkMatch (env : DiscoveryEnv) (i : Nat) : Bool :=
  match env.symlink i with
  | some l => isInfixB ":1.2/".toList l
  | none => false

/-- Data-check fallback of find_device: the non-blocking open succeeds,
the 100 ms select wait reports the descriptor readable, and the probe
read succeeds. -/
def dataCheck (env : DiscoveryEnv) (i : Nat) : Bool :=
  env.openOk i && env.selectReady i && env.readOk i

/-- HidrawButtonMonitor.find_device: collect candidates, fail when there
are none, return the first symlink match, else the first candidate that
passes the data check, else the last (highest-numbered) candidate. -/
def find_device (env : DiscoveryEnv) : Option Nat :=
  let cs := candidates env
  if cs.isEmpty then none
  else
    match cs.find? (symlinkMatch env) with
    | some i => some i
    | none =>
        match cs.find? (dataCheck env) with
        | some i => some i
        | none => cs.getLast?

/-! Helper lemmas. -/

lemma allButtons_nodup : allButtons.Nodup := by decide

lemma mem_allButtons : ∀ b : Button, b ∈ allButtons := by decide

lemma bevent_true_injective (ts : Nat) :
    Function.Injective fun b : Button => BEvent.mk b true ts := by
  intro x y h
  simpa using congrArg BEvent.button h

lemma bevent_false_injective (ts : Nat) :
    Function.Injective fun b : Button => BEvent.mk b false ts := by
  intro x y h
  simpa using congrArg BEvent.button h

lemma count_filter_allButtons (p : Button → Prop) [DecidablePred p] (b : Button) :
    (allButtons.filter fun x => decide (p x)).count b = if p b then 1 else 0 := by
  by_cases hp : p b
  · rw [if_pos hp, List.count_filter (by simpa using hp)]
    exact List.count_eq_one_of_mem allButtons_nodup (mem_allButtons b)
  · rw [if_neg hp]
    refine List.count_eq_zero_of_not_mem fun hmem => hp ?_
    have := (List.mem_filter.mp hmem).2
    simpa using this

lemma count_packetEvents_true (ts : Nat) (cur nb : Finset Button) (b : Button) :
    (packetEvents ts cur nb).count ⟨b, true, ts⟩ =
      if b ∈ nb ∧ b ∉ cur then 1 else 0 := by
  unfold packetEvents
  rw [List.count_append]
  have h1 : ((allButtons.filter fun x => decide (x ∈ cur ∧ x ∉ nb)).map
      fun x => BEvent.mk x false ts).count ⟨b, true, ts⟩ = 0 := by
    refine List.count_eq_zero_of_not_mem ?_
    simp [List.mem_map]
  have h2 : ((allButtons.filter fun x => decide (x ∈ nb ∧ x ∉ cur)).map
      fun x => BEvent.mk x true ts).count ⟨b, true, ts⟩ =
      (allButtons.filter fun x => decide (x ∈ nb ∧ x ∉ cur)).count b :=
    List.count_map_of_injective _ _ (bevent_true_injective ts) b
  rw [h1, h2, count_filter_allButtons (fun x => x ∈ nb ∧ x ∉ cur) b]
  omega

lemma count_packetEvents_false (ts : Nat) (cur nb : Finset Button) (b : Button) :
    (packetEvents ts cur nb).count ⟨b, false, ts⟩ =
      if b ∈ cur ∧ b ∉ nb then 1 else 0 := by
  unfold packetEvents
  rw [List.count_append]
  have h1 : ((allButtons.filter fun x => decide (x ∈ nb ∧ x ∉ cur)).map
      fun x => BEvent.mk x true ts).count ⟨b, false, ts⟩ = 0 := by
    refine List.count_eq_zero_of_not_mem ?_
    simp [List.mem_map]
  have h2 : ((allButtons.filter fun x => decide (x ∈ cur ∧ x ∉ nb)).map
      fun x => BEvent.mk x false ts).count ⟨b, false, ts⟩ =
      (allButtons.filter fun x => decide (x ∈ cur ∧ x ∉ nb)).count b :=
    List.count_map_of_injective _ _ (bevent_false_injective ts) b
  rw [h1, h2, count_filter_allButtons (fun x => x ∈ cur ∧ x ∉ nb) b]
  omega

lemma packetEvents_timestamps (ts : Nat) (cur nb : Finset Button) :
    (packetEvents ts cur nb).all (fun e => e.timestamp == ts) = true := by
  rw [List.all_eq_true]
  intro e he
  simp only [packetEvents, List.mem_append, List.mem_map] at he
  rcases he with ⟨x, _, rfl⟩ | ⟨x, _, rfl⟩ <;> simp

/-! Claim theorems. -/

/-- C1: for every byte buffer of at least 16 bytes the decoder extracts
32-bit little-endian words from bytes 8-11 and 12-15 and produces as the
new ButtonState exactly the set of button names whose mask bit (per the
fixed tables of the specification) is set in the corresponding word; the
decoding depends on nothing but those bytes. -/
theorem c1_packet_decoder :
    ∀ data : List Nat, 16 ≤ data.length →
      (∀ b : Button, b ∈ decodePacket data ↔
        (if (specButtonMask b).1 then specWord data 12 else specWord data 8)
          &&& (specButtonMask b).2 ≠ 0) ∧
      (∀ data2 : List Nat,
        (∀ j, 8 ≤ j → j < 16 → data.getD j 0 = data2.getD j 0) →
        decodePacket data = decodePacket data2) := by
  intro data _
  constructor
  · intro b
    rw [decodePacket, mem_decodeState_mask, le32_eq_specWord, le32_eq_specWord]
  · intro data2 h
    have hoff : ∀ off, 8 ≤ off → off + 3 < 16 → le32 data off = le32 data2 off := by
      intro off h1 h2
      unfold le32
      rw [h off (by omega) (by omega), h (off + 1) (by omega) (by omega),
        h (off + 2) (by omega) (by omega), h (off + 3) (by omega) (by omega)]
    rw [decodePacket, decodePacket, hoff 8 (by omega) (by omega),
      hoff 12 (by omega) (by omega)]

/-- A 16-byte packet asserting A and R2 in ButtonsL and L4 in ButtonsH. -/
def data1 : List Nat := [0, 0, 0, 0, 0, 0, 0, 0, 0x81, 0, 0, 0, 0, 2, 0, 0]

theorem c1_witness :
    (16 ≤ data1.length) ∧ Button.A ∈ decodePacket data1 ∧
      Button.L4 ∈ decodePacket data1 ∧ Button.B ∉ decodePacket data1 := by
  have hA := (c1_packet_decoder data1 (by decide)).1 Button.A
  have hL4 := (c1_packet_decoder data1 (by decide)).1 Button.L4
  have hB := (c1_packet_decoder data1 (by decide)).1 Button.B
  exact ⟨by decide, hA.2 (by decide), hL4.2 (by decide),
    fun hmem => absurd (hB.1 hmem) (by decide)⟩

/-- A monitor state whose previous packet asserted exactly A. -/
def st2c : MonState :=
  { initState with current_buttons := {Button.A}, last_buttons_l := 0x80 }

/-- A 16-byte packet whose ButtonsL clears bit 0x80 and sets bit 0x1. -/
def data2c : List Nat := [0, 0, 0, 0, 0, 0, 0, 0, 1, 0, 0, 0, 0, 0, 0, 0]

/-- C2: processing a packet emits exactly one pressed=true event per
button entering ButtonState, exactly one pressed=false event per button
leaving it, and nothing else (every emitted event carries the capture
timestamp, and all its occurrences are counted); in particular the
transition from ButtonsL 0x80 to 0x1 emits exactly the two events A
released and R2 pressed. -/
theorem c2_edge_events :
    (∀ (ts : Nat) (data : List Nat) (st : MonState) (b : Button),
      ((processPacket ts data st).2.count ⟨b, true, ts⟩ =
        if b ∈ (processPacket ts data st).1.current_buttons ∧
            b ∉ st.current_buttons then 1 else 0) ∧
      ((processPacket ts data st).2.count ⟨b, false, ts⟩ =
        if b ∈ st.current_buttons ∧
            b ∉ (processPacket ts data st).1.current_buttons then 1 else 0) ∧
      ((processPacket ts data st).2.all (fun e => e.timestamp == ts) = true)) ∧
    (processPacket 0 data2c st2c).2 =
      [⟨Button.A, false, 0⟩, ⟨Button.R2, true, 0⟩] := by
  constructor
  · intro ts data st b
    by_cases hc : le32 data 8 = st.last_buttons_l ∧ le32 data 12 = st.last_buttons_h
    · simp [processPacket, if_pos hc]
    · simp only [processPacket, if_neg hc]
      exact ⟨count_packetEvents_true ts st.current_buttons _ b,
        count_packetEvents_false ts st.current_buttons _ b,
        packetEvents_timestamps ts st.current_buttons _⟩
  · decide

/-- C3: processing the same 64-byte packet twice in succession emits no
event on the second processing and leaves the whole monitor state, in
particular ButtonState, unchanged. -/
theorem c3_steady_state :
    ∀ (ts ts2 : Nat) (data : List Nat) (st : MonState), data.length = 64 →
      processPacket ts2 data (processPacket ts data st).1 =
        ((processPacket ts data st).1, []) := by
  intro ts ts2 data st _
  have h : (processPacket ts data st).1.last_buttons_l = le32 data 8 ∧
      (processPacket ts data st).1.last_buttons_h = le32 data 12 := by
    by_cases hc : le32 data 8 = st.last_buttons_l ∧ le32 data 12 = st.last_buttons_h
    · simp only [processPacket, if_pos hc]
      exact ⟨hc.1.symm, hc.2.symm⟩
    · simp only [processPacket, if_neg hc]
      exact ⟨trivial, trivial⟩
  set st1 := (processPacket ts data st).1 with hst1
  simp only [processPacket]
  rw [if_pos ⟨h.1.symm, h.2.symm⟩]

/-- A state only reachable through at least one processed packet. -/
def st3 : MonState := (processPacket 0 data1 initState).1

theorem c3_witness :
    (data1.length = 64 → processPacket 1 data1 st3 = (st3, [])) ∧
      ((data1 ++ List.replicate 48 0).length = 64 ∧
        processPacket 1 (data1 ++ List.replicate 48 0)
            (processPacket 0 (data1 ++ List.replicate 48 0) initState).1 =
          ((processPacket 0 (data1 ++ List.replicate 48 0) initState).1, [])) :=
  ⟨fun h => c3_steady_state 0 1 data1 initState h,
    ⟨by decide, c3_steady_state 0 1 (data1 ++ List.replicate 48 0) initState (by decide)⟩⟩

/-- The k-th of a family of pairwise distinct events: event number k+1,
distinguished by its timestamp. -/
def seqEvent (k : Nat) : BEvent := ⟨Button.A, true, k + 1⟩

set_option maxRecDepth 8000 in
/-- C4: the event queue has capacity exactly 100; enqueueing below
capacity appends, enqueueing onto a full queue evicts the single oldest
entry and stores the new event at the back (never dropping the new
event, and without blocking, as enqueue is total); pushing the 105
sequential distinct events 1..105 leaves exactly the 100 events 6..105,
which a full drain returns in order. -/
theorem c4_queue_drop_oldest :
    (∀ (q : List BEvent) (e : BEvent), q.length < 100 → enqueue q e = q ++ [e]) ∧
    (∀ (q : List BEvent) (e : BEvent), q.length = 100 →
      enqueue q e = q.tail ++ [e]) ∧
    (∀ (q : List BEvent) (e : BEvent), q.length ≤ 100 →
      (enqueue q e).length ≤ 100) ∧
    (∀ (q : List BEvent) (e : BEvent), (enqueue q e).getLast? = some e) ∧
    ((List.range 105).map seqEvent).foldl enqueue [] =
      (List.range 100).map (fun k => seqEvent (k + 5)) ∧
    (get_events 100
        { initState with
            event_queue := ((List.range 105).map seqEvent).foldl enqueue [] }).1 =
      (List.range 100).map (fun k => seqEvent (k + 5)) := by
  refine ⟨fun q e h => by simp [enqueue, h], fun q e h => ?_, fun q e h => ?_,
    fun q e => ?_, by decide, by decide⟩
  · rw [enqueue, if_neg (by omega)]
  · by_cases hl : q.length < 100
    · rw [enqueue, if_pos hl]
      simp
      omega
    · rw [enqueue, if_neg hl]
      cases q with
      | nil => simp
      | cons a t => simp at hl h ⊢; omega
  · by_cases hl : q.length < 100
    · rw [enqueue, if_pos hl]
      exact List.getLast?_concat q
    · rw [enqueue, if_neg hl]
      exact List.getLast?_concat q.tail

theorem c4_witness :
    enqueue [] (seqEvent 0) = [seqEvent 0] ∧
      enqueue ((List.range 100).map seqEvent) (seqEvent 100) =
        ((List.range 100).map seqEvent).tail ++ [seqEvent 100] ∧
      (enqueue ((List.range 100).map seqEvent) (seqEvent 100)).length ≤ 100 :=
  ⟨c4_queue_drop_oldest.1 [] (seqEvent 0) (by decide),
    c4_queue_drop_oldest.2.1 ((List.range 100).map seqEvent) (seqEvent 100)
      (by simp),
    c4_queue_drop_oldest.2.2.1 ((List.range 100).map seqEvent) (seqEvent 100)
      (by simp)⟩

lemma drainLoop_eq (n : Nat) :
    ∀ q : List BEvent, drainLoop n q = (q.take n, q.drop n) := by
  induction n with
  | zero => intro q; simp [drainLoop]
  | succ n ih =>
      intro q
      cases q with
      | nil => simp [drainLoop]
      | cons e q => simp [drainLoop, ih]

/-- C5: draining returns at most max_events events, taken from the front
of the queue in FIFO order, removes exactly the returned events (the
returned list followed by the remaining queue is the original queue, so
every undrained event stays queued), and touches nothing else of the
state. -/
theorem c5_get_events :
    ∀ (max_events : Nat) (st : MonState),
      (get_events max_events st).1.length ≤ max_events ∧
      (get_events max_events st).1 ++ ((get_events max_events st).2).event_queue =
        st.event_queue ∧
      (get_events max_events st).1 = st.event_queue.take max_events ∧
      ((get_events max_events st).2).current_buttons = st.current_buttons ∧
      ((get_events max_events st).2).running = st.running := by
  intro n st
  simp [get_events, drainLoop_eq, List.length_take_le]

/-- C6: start returns true at once, without reinitializing, when the
monitor is already running; it returns false exactly when the monitor
was not running and the proprietary device could not be initialized
(discovery found no device while no path was stored, or the open
failed); the outcomes of the two feature-report commands never change
the result. -/
theorem c6_start :
    ∀ (env : InitEnv) (st : MonState),
      (st.running = true → start env st = (true, st)) ∧
      ((start env st).1 = false ↔
        st.running = false ∧
          ((st.device_path = none ∧ env.findResult = none) ∨
            env.openOk = false)) ∧
      (∀ r1 r2 : Bool,
        (start { env with report1Ok := r1, report2Ok := r2 } st).1 =
          (start env st).1) := by
  intro env st
  refine ⟨fun h => by simp [start, h], ?_, ?_⟩
  · cases hr : st.running
    · cases hp : st.device_path <;> cases hf : env.findResult <;>
        cases ho : env.openOk <;>
        simp [start, initialize_device, openPhase, hr, hp, hf, ho]
    · simp [start, hr]
  · intro r1 r2
    cases hr : st.running <;> cases hp : st.device_path <;>
      cases hf : env.findResult <;> cases ho : env.openOk <;>
      simp [start, initialize_device, openPhase, hr, hp, hf, ho]

/-- A monitor state that is already running. -/
def stRun : MonState := { initState with running := true, thread := true }

/-- An environment in which discovery succeeds, the open succeeds, and
both feature reports fail. -/
def env6 : InitEnv :=
  { findResult := some 2, openOk := true, report1Ok := false,
    report2Ok := false }

theorem c6_witness :
    start env6 stRun = (true, stRun) ∧
      (start { env6 with openOk := false } initState).1 = false ∧
      (start { env6 with report1Ok := true, report2Ok := true } initState).1 =
        (start env6 initState).1 :=
  ⟨(c6_start env6 stRun).1 (by decide),
    ((c6_start { env6 with openOk := false } initState).2.1).2
      ⟨by decide, Or.inr (by decide)⟩,
    (c6_start env6 initState).2.2 true true⟩

/-- A running, initialized monitor state with five accumulated errors. -/
def st7 : MonState :=
  { initState with
      initialized := true, device_fd := some 0,
      running := true, thread := true, error_count := 5 }

/-- A loop environment whose read succeeds but yields only 8 bytes. -/
def env7 : LoopEnv :=
  { init := { findResult := none
              openOk := false
              report1Ok := false
              report2Ok := false }
    read := .ok [0, 0, 0, 0, 0, 0, 0, 0]
    ts := 0 }

/-- C7 counterexample: in a loop iteration whose read succeeds with an
8-byte packet, the consecutive-error counter is not reset to zero but
keeps its old value 5, refuting the claim that every successful read
resets the counter. -/
theorem c7_counterexample :
    env7.read = .ok [0, 0, 0, 0, 0, 0, 0, 0] ∧ st7.error_count = 5 ∧
      (monitorStep env7 st7).1.error_count = 5 ∧
      ¬ (monitorStep env7 st7).1.error_count = 0 := by decide

/-- C7 amended: in the polling loop every I/O read error increments the
consecutive-error counter; when the counter reaches the threshold 10 the
descriptor is force-closed and the device path forgotten before the
fixed 2-second delay; and a successful read resets the counter to zero
exactly when it yields at least 16 bytes, shorter successful reads
leaving the state unchanged. -/
theorem c7_error_threshold :
    ∀ (env : LoopEnv) (st : MonState),
      st.initialized = true → st.device_fd.isSome = true →
      (env.read = .oserr →
        (monitorStep env st).1.error_count = st.error_count + 1 ∧
        (10 ≤ st.error_count + 1 →
          (monitorStep env st).1.device_fd = none ∧
          (monitorStep env st).1.device_path = none ∧
          (monitorStep env st).1.initialized = false ∧
          (monitorStep env st).2 = [.sleepMs 2000]) ∧
        (st.error_count + 1 < 10 → (monitorStep env st).2 = [])) ∧
      (∀ data, env.read = .ok data → 16 ≤ data.length →
        (monitorStep env st).1.error_count = 0) ∧
      (∀ data, env.read = .ok data → data.length < 16 →
        monitorStep env st = (st, [])) := by
  intro env st hi hf
  cases hfd : st.device_fd with
  | none => rw [hfd] at hf; simp at hf
  | some v =>
      have hstep : monitorStep env st = readPhase env st := by
        simp [monitorStep, hi, hfd]
      refine ⟨fun hr => ?_, fun data hr hlen => ?_, fun data hr hlen => ?_⟩
      · rw [hstep]
        by_cases h10 : 10 ≤ st.error_count + 1
        · simp [readPhase, hr, close_device, h10]
        · simp [readPhase, hr, close_device, h10]
      · rw [hstep]
        simp [readPhase, hr, hlen]
      · rw [hstep]
        simp [readPhase, hr, Nat.not_le.mpr hlen]

theorem c7_witness :
    let st9 : MonState := { st7 with error_count := 9 }
    let envE : LoopEnv := { env7 with read := .oserr }
    let envG : LoopEnv := { env7 with read := .ok data1 }
    (monitorStep envE st9).1.error_count = 10 ∧
      (monitorStep envE st9).1.device_fd = none ∧
      (monitorStep envE st9).2 = [.sleepMs 2000] ∧
      (monitorStep envG st7).1.error_count = 0 := by
  intro st9 envE envG
  have h := c7_error_threshold envE st9 (by decide) (by decide)
  have hg := c7_error_threshold envG st7 (by decide) (by decide)
  refine ⟨(h.1 (by decide)).1, ((h.1 (by decide)).2.1 (by decide)).1,
    ((h.1 (by decide)).2.1 (by decide)).2.2.2,
    hg.2.1 data1 (by decide) (by decide)⟩

/-- A running monitor state holding one pressed button and one queued
event. -/
def st8 : MonState :=
  { initState with
      device_fd := some 0, device_path := some 2,
      running := true, thread := true,
      event_queue := [⟨Button.A, true, 5⟩],
      current_buttons := {Button.A}, last_buttons_l := 0x80,
      initialized := true }

/-- C8 counterexample: stopping a monitor whose state holds button A and
one queued event leaves both the button set and the queue non-empty,
refuting the claim that stop clears ButtonState and the event queue. -/
theorem c8_counterexample :
    ¬ ((stop st8).current_buttons = ∅ ∧ (stop st8).event_queue = []) := by
  decide

/-- C8 amended: after stop the monitor is no longer running, its thread
is gone and its descriptor closed, but ButtonState and the event queue
are preserved rather than cleared: a subsequent get_button_state or
get_events on the stopped monitor returns exactly the data carried over
from before the stop. -/
theorem c8_stop_preserves :
    ∀ st : MonState,
      (stop st).running = false ∧ (stop st).initialized = false ∧
      (stop st).device_fd = none ∧ (stop st).thread = false ∧
      (stop st).current_buttons = st.current_buttons ∧
      (stop st).event_queue = st.event_queue ∧
      get_button_state (stop st) = get_button_state st ∧
      (∀ n, (get_events n (stop st)).1 = (get_events n st).1) := by
  intro st
  simp [stop, get_button_state, get_events]

/-- C9: discovery works through its fallback strategies in order over
the candidates that matched the vendor/product identifiers: first the
earliest candidate whose symlink contains the interface marker 1.2, then
the earliest candidate whose non-blocking open and 100 ms readiness
check yield data, then the highest-numbered candidate; with no
candidates at all, discovery returns no device. -/
theorem c9_discovery_order :
    ∀ env : DiscoveryEnv,
      (candidates env = [] → find_device env = none) ∧
      (∀ i, (candidates env).find? (symlinkMatch env) = some i →
        find_device env = some i) ∧
      ((candidates env).find? (symlinkMatch env) = none →
        ∀ i, (candidates env).find? (dataCheck env) = some i →
          find_device env = some i) ∧
      ((candidates env).find? (symlinkMatch env) = none →
        (candidates env).find? (dataCheck env) = none →
        candidates env ≠ [] →
        find_device env = (candidates env).getLast?) := by
  intro env
  refine ⟨fun h => by simp [find_device, h], fun i h => ?_, fun h1 i h2 => ?_,
    fun h1 h2 h3 => ?_⟩
  · cases hc : candidates env with
    | nil => rw [hc] at h; simp at h
    | cons a l =>
        rw [hc] at h
        simp [find_device, hc, h]
  · cases hc : candidates env with
    | nil => rw [hc] at h2; simp at h2
    | cons a l =>
        rw [hc] at h1 h2
        simp [find_device, hc, h1, h2]
  · cases hc : candidates env with
    | nil => exact absurd hc h3
    | cons a l =>
        rw [hc] at h1 h2
        simp [find_device, hc, h1, h2]

/-- Discovery environment in which hidraw1 and hidraw3 match the vendor
and product identifiers, and hidraw3 carries the interface 1.2 marker in
its symlink target. -/
def denv1 : DiscoveryEnv :=
  { devExists := fun i => i == 1 || i == 3
    uevent := fun i =>
      if i == 1 || i == 3 then
        some "HID_ID=0003:000028DE:00001205".toList
      else none
    symlink := fun i =>
      if i == 3 then
        some "../../devices/pci0/usb1/1-3/1-3:1.2/hidraw/hidraw3".toList
      else some "../../devices/pci0/usb1/1-3/1-3:1.0/hidraw/hidraw1".toList
    openOk := fun _ => false
    selectReady := fun _ => false
    readOk := fun _ => false }

/-- Discovery environment with the same candidates, no symlink match,
and data available on hidraw1 only. -/
def denv2 : DiscoveryEnv :=
  { denv1 with
      symlink := fun _ => none
      openOk := fun _ => true
      selectReady := fun i => i == 1
      readOk := fun _ => true }

/-- Discovery environment with candidates but no symlink match and no
data on any candidate. -/
def denv3 : DiscoveryEnv :=
  { denv1 with symlink := fun _ => none }

/-- Discovery environment without any matching candidate. -/
def denv0 : DiscoveryEnv :=
  { denv1 with uevent := fun _ => none }

theorem c9_witness :
    find_device denv1 = some 3 ∧ find_device denv2 = some 1 ∧
      find_device denv3 = (candidates denv3).getLast? ∧
      find_device denv0 = none :=
  ⟨(c9_discovery_order denv1).2.1 3 (by decide),
    (c9_discovery_order denv2).2.2.1 (by decide) 1 (by decide),
    (c9_discovery_order denv3).2.2.2 (by decide) (by decide) (by decide),
    (c9_discovery_order denv0).1 (by decide)⟩

lemma initialize_device_error_count (env : InitEnv) (st : MonState) :
    ((initialize_device env st).2).error_count = st.error_count := by
  cases hp : st.device_path <;> cases hf : env.findResult <;>
    cases ho : env.openOk <;>
    simp [initialize_device, openPhase, hp, hf, ho]

lemma readPhase_count_zero (env : LoopEnv) (st : MonState) :
    st.error_count ≠ 0 → (readPhase env st).1.error_count = 0 →
    ∃ data, env.read = .ok data ∧ 16 ≤ data.length := by
  intro h0 h
  cases hr : env.read with
  | noData => rw [readPhase, hr] at h; exact absurd h h0
  | ok data =>
      by_cases hl : 16 ≤ data.length
      · exact ⟨data, rfl, hl⟩
      · rw [readPhase, hr] at h
        simp [hl] at h
        exact absurd h h0
  | oserr =>
      rw [readPhase, hr] at h
      by_cases h10 : 10 ≤ st.error_count + 1 <;>
        simp [h10, close_device] at h
  | otherErr =>
      rw [readPhase, hr] at h
      simp at h

/-- C10: neither the forced close nor a re-initialization touches the
consecutive-error counter; a loop iteration brings the counter from a
non-zero value back to zero only when its read yields at least 16 bytes;
and from any reconnected state whose counter is still at or above the
threshold, one further I/O error suffices for another forced close and
2-second delay. -/
theorem c10_counter_persistence :
    (∀ st, (close_device st).error_count = st.error_count) ∧
    (∀ (env : InitEnv) (st : MonState),
      ((initialize_device env st).2).error_count = st.error_count) ∧
    (∀ (env : LoopEnv) (st : MonState), st.error_count ≠ 0 →
      (monitorStep env st).1.error_count = 0 →
      ∃ data, env.read = .ok data ∧ 16 ≤ data.length) ∧
    (∀ (env : LoopEnv) (st : MonState), 10 ≤ st.error_count →
      st.initialized = true → st.device_fd.isSome = true →
      env.read = .oserr →
      (monitorStep env st).1.device_fd = none ∧
      (monitorStep env st).1.initialized = false ∧
      (monitorStep env st).1.device_path = none ∧
      (monitorStep env st).2 = [.sleepMs 2000]) := by
  refine ⟨fun st => rfl, initialize_device_error_count, ?_, ?_⟩
  · intro env st h0 h
    rw [monitorStep] at h
    by_cases hinit : (!st.initialized || st.device_fd.isNone) = true
    · rw [if_pos hinit] at h
      by_cases hok : (initialize_device env.init st).1
      · rw [if_pos hok] at h
        refine readPhase_count_zero env (initialize_device env.init st).2 ?_ h
        rw [initialize_device_error_count]
        exact h0
      · rw [if_neg hok] at h
        have h2 : (initialize_device env.init st).2.error_count = 0 := h
        rw [initialize_device_error_count] at h2
        exact absurd h2 h0
    · rw [if_neg hinit] at h
      exact readPhase_count_zero env st h0 h
  · intro env st h10 hi hfd hr
    cases hf : st.device_fd with
    | none => rw [hf] at hfd; simp at hfd
    | some v =>
        have hstep : monitorStep env st = readPhase env st := by
          simp [monitorStep, hi, hf]
        rw [hstep, readPhase, hr]
        simp [close_device, show 10 ≤ st.error_count + 1 by omega]

theorem c10_witness :
    let stE : MonState :=
      { st7 with error_count := 10, device_path := some 2 }
    let envE : LoopEnv := { env7 with read := .oserr }
    let envG : LoopEnv := { env7 with read := .ok data1 }
    (close_device stE).error_count = 10 ∧
      ((initialize_device env6 initState).2).error_count = 0 ∧
      (∃ data, envG.read = .ok data ∧ 16 ≤ data.length) ∧
      ((monitorStep envE stE).1.device_fd = none ∧
        (monitorStep envE stE).1.initialized = false ∧
        (monitorStep envE stE).1.device_path = none ∧
        (monitorStep envE stE).2 = [.sleepMs 2000]) := by
  intro stE envE envG
  refine ⟨c10_counter_persistence.1 stE, c10_counter_persistence.2.1 env6 initState,
    c10_counter_persistence.2.2.1 envG { st7 with error_count := 3 }
      (by decide) (by decide),
    c10_counter_persistence.2.2.2 envE stE (by decide) (by decide) (by decide)
      (by decide)⟩

end DeckyTranslator
